import Mathlib

/-!
Verification of the dispatch-and-wrapping layer of a Python API client
(`lokalise/client.py` and `lokalise/collections/projects.py`).

The embedding is shallow: Python dicts become association lists with
first-occurrence lookup and replace-or-append update (matching Python dict
semantics, whose keys are unique and insertion-ordered), Python exceptions
become an `Except` error type, object identity is modelled by tagging each
freshly constructed handler with an allocation counter, and instance
attributes that may be unset (Python `hasattr`) become `Option` fields.
-/

/-- Errors raised by the Python code or named by its documentation.
`moduleNotFoundError` is what `importlib.import_module` raises for a missing
module; `keyError` is a failed `dict[...]` access; `valueError` is a failed
`int(...)` coercion; `attributeError` is an access to an unset instance
attribute; `typeError` covers operations on values of the wrong shape.
`configurationError` and `malformedResponseError` appear only in the
documentation of the layer and are never raised by the embedded code. -/
inductive PyErr : Type
  | moduleNotFoundError : PyErr
  | configurationError : PyErr
  | keyError : String → PyErr
  | malformedResponseError : PyErr
  | attributeError : PyErr
  | valueError : PyErr
  | typeError : PyErr
deriving DecidableEq

/-- Lookup of the first binding of a key in an association list: the model of
Python dict read (keys in a Python dict are unique, so first = only). -/
def alookup {κ α : Type} [DecidableEq κ] : List (κ × α) → κ → Option α
  | [], _ => none
  | (k, v) :: rest, key => if k = key then some v else alookup rest key

/-- Update of an association list at a key: replace the first binding in
place if the key is present, append otherwise; the model of Python dict
assignment and of `setattr`, preserving insertion order. -/
def aset {κ α : Type} [DecidableEq κ] : List (κ × α) → κ → α → List (κ × α)
  | [], key, val => [(key, val)]
  | (k, v) :: rest, key, val =>
    if k = key then (key, val) :: rest else (k, v) :: aset rest key val

theorem alookup_aset_eq {κ α : Type} [DecidableEq κ] (l : List (κ × α)) (k : κ) (v : α) :
    alookup (aset l k v) k = some v := by
  induction l with
  | nil => simp [aset, alookup]
  | cons hd tl ih =>
    obtain ⟨k', v'⟩ := hd
    by_cases h : k' = k
    · simp [aset, alookup, h]
    · simp [aset, alookup, h, ih]

theorem alookup_aset_ne {κ α : Type} [DecidableEq κ] (l : List (κ × α)) (k k' : κ) (v : α)
    (h : k' ≠ k) : alookup (aset l k v) k' = alookup l k' := by
  induction l with
  | nil => simp [aset, alookup, Ne.symm h]
  | cons hd tl ih =>
    obtain ⟨k₀, v₀⟩ := hd
    by_cases h₀ : k₀ = k
    · subst h₀
      simp [aset, alookup, Ne.symm h]
    · simp [aset, alookup, h₀, ih]

/-!
## Client endpoint dispatch (`lokalise/client.py`)

`Client.get_endpoint(name)` builds `endpoint_name = name + "_endpoint"`,
imports the module `.endpoints.{endpoint_name}` (raising
`ModuleNotFoundError` when no such module exists), resolves the endpoint
class, and delegates to `Client.__fetch_attr("__" + endpoint_name, populator)`,
which stores a fresh instance under the attribute when `hasattr` is false and
then returns `getattr` of the attribute.

`Client.reset_client()` blanks the token and timeouts and calls
`Client.__clear_endpoint_attrs()`, which sets every instance attribute whose
name ends in `"_endpoint"` to `None` (it does not delete the attribute).
-/

/-- An endpoint handler instance. `endpointName` records which endpoint class
it instantiates; `id` is an allocation tag modelling Python object identity:
two handlers constructed by distinct `populator()` calls carry distinct tags. -/
structure Handler : Type where
  endpointName : String
  id : Nat
deriving DecidableEq

/-- The client state: `token`, `connect_timeout` and `read_timeout` as in
`Client.__init__`, plus the instance attributes used for endpoint
memoization. `attrs` models the `_endpoint`-suffixed entries of `vars(self)`:
a key that is absent was never set (Python `hasattr` is false), a key mapped
to `none` holds Python `None` (as left by `reset_client`), and a key mapped
to `some h` holds the handler `h`. `nextId` feeds allocation tags. -/
structure Client : Type where
  token : String
  connect_timeout : Option Int
  read_timeout : Option Int
  attrs : List (String × Option Handler)
  nextId : Nat
deriving DecidableEq

/-- `Client.__fetch_attr(attr_name, populator)`: if `hasattr(self, attr_name)`
is false, set the attribute to a freshly constructed handler; then return
`getattr(self, attr_name)` (which may be Python `None`). -/
def fetch_attr (attrName : String) (endpointName : String) (c : Client) :
    Option Handler × Client :=
  match alookup c.attrs attrName with
  | some v => (v, c)
  | none =>
    let h : Handler := ⟨endpointName, c.nextId⟩
    (some h,
     { c with attrs := aset c.attrs attrName (some h), nextId := c.nextId + 1 })

/-- `Client.get_endpoint(name)`. `registry` is the set of resource names for
which a module `.endpoints.{name}_endpoint` exists in the (external)
endpoints package; for any other name the dynamic import raises
`ModuleNotFoundError` before any attribute is touched. The pair returns the
raised-or-returned value together with the client state after the call. -/
def get_endpoint (registry : List String) (name : String) (c : Client) :
    Except PyErr (Option Handler) × Client :=
  let endpointName := name ++ "_endpoint"
  if registry.contains name then
    let r := fetch_attr ("__" ++ endpointName) endpointName c
    (.ok r.1, r.2)
  else
    (.error .moduleNotFoundError, c)

/-- Python `str.endswith(suffix)`: the character sequence of `suffix` is a
suffix of the character sequence of `s`. -/
def str_endswith (s suffix : String) : Bool :=
  suffix.data.isSuffixOf s.data

/-- `Client.__clear_endpoint_attrs()`: set every instance attribute whose
name ends in `"_endpoint"` to `None`. -/
def clear_endpoint_attrs (attrs : List (String × Option Handler)) :
    List (String × Option Handler) :=
  attrs.map (fun kv => if str_endswith kv.1 "_endpoint" then (kv.1, none) else kv)

/-- `Client.reset_client()`: blank the token, drop both timeouts, and clear
the endpoint attributes. -/
def reset_client (c : Client) : Client :=
  { token := "", connect_timeout := none, read_timeout := none,
    attrs := clear_endpoint_attrs c.attrs, nextId := c.nextId }

/-- A fresh client as built by `Client.__init__(token)`: no endpoint
attribute exists yet. -/
def Client.init (token : String) : Client :=
  { token := token, connect_timeout := none, read_timeout := none,
    attrs := [], nextId := 0 }

/-!
## JSON values and the projects collection (`lokalise/collections/projects.py`)
-/

/-- A JSON value as passed around by the Python code, extended with the
`model` constructor: `model raw` is a Python model object (`ProjectModel` or
`BranchModel`) wrapping the raw JSON value `raw`, which is how the client
normalizes raw JSON into model instances. -/
inductive JVal : Type
  | str : String → JVal
  | num : Int → JVal
  | arr : List JVal → JVal
  | obj : List (String × JVal) → JVal
  | model : JVal → JVal

/-- A Python dict with string keys, as an insertion-ordered association
list. -/
abbrev PyDict : Type := List (String × JVal)

/-- Python truthiness of a JSON value, as used by `if pagination:`. -/
def pyTruthy : JVal → Bool
  | .str s => !s.isEmpty
  | .num n => n != 0
  | .arr elems => !elems.isEmpty
  | .obj fields => !fields.isEmpty
  | .model _ => true

/-- The decimal value of a nonempty string of digit characters; `none` when
the list is empty or holds a non-digit. -/
def parse_digits (cs : List Char) : Option Nat :=
  if cs.isEmpty then none
  else if cs.all Char.isDigit then
    some (cs.foldl (fun acc c => acc * 10 + (c.toNat - 48)) 0)
  else none

/-- Python `int(...)` applied to a string: an optional sign followed by
decimal digits; anything else raises `ValueError`. -/
def py_int_str (s : String) : Option Int :=
  match s.data with
  | '-' :: rest => (parse_digits rest).map (fun n => -(n : Int))
  | '+' :: rest => (parse_digits rest).map (fun n => (n : Int))
  | cs => (parse_digits cs).map (fun n => (n : Int))

/-- Python `int(...)` applied to a JSON value: an integer is returned as is,
a string is parsed (raising `ValueError` when it is not a numeral), and any
other shape raises `TypeError`. -/
def py_int : JVal → Except PyErr Int
  | .num n => .ok n
  | .str s =>
    match py_int_str s with
    | some n => .ok n
    | none => .error .valueError
  | _ => .error .typeError

/-- Python `dict.get(key, default)`. -/
def dget (d : List (String × JVal)) (key : String) (default : JVal) : JVal :=
  (alookup d key).getD default

/-- The `ProjectsCollection` instance state. `items` is the list built in
`__init__`; the four pagination fields are instance attributes that
`__init__` assigns only inside the `if pagination:` branch, so each is an
`Option`: `none` means the attribute was never set (reading it raises
`AttributeError`). -/
structure ProjectsCollection : Type where
  items : List JVal
  total_count : Option Int
  page_count : Option Int
  limit : Option Int
  current_page : Option Int

/-- `ProjectsCollection.__init__(raw_data)`: read `raw_data["projects"]`
(raising `KeyError` when absent), wrap each element into a `ProjectModel`
preserving order, then read `raw_data.get("_pagination", {})` and, only when
that value is truthy, coerce the four pagination sub-keys with `int(...)`,
each defaulting to `0` when absent, in source order. -/
def ProjectsCollection.ofRaw (raw_data : PyDict) : Except PyErr ProjectsCollection :=
  match alookup raw_data "projects" with
  | none => .error (.keyError "projects")
  | some (JVal.arr raw_items) =>
    if pyTruthy ((alookup raw_data "_pagination").getD (JVal.obj [])) then
      match (alookup raw_data "_pagination").getD (JVal.obj []) with
      | JVal.obj pfields =>
        match py_int (dget pfields "x-pagination-total-count" (JVal.num 0)) with
        | .error e => .error e
        | .ok tc =>
          match py_int (dget pfields "x-pagination-page-count" (JVal.num 0)) with
          | .error e => .error e
          | .ok pc =>
            match py_int (dget pfields "x-pagination-limit" (JVal.num 0)) with
            | .error e => .error e
            | .ok lim =>
              match py_int (dget pfields "x-pagination-page" (JVal.num 0)) with
              | .error e => .error e
              | .ok cp =>
                .ok ⟨raw_items.map JVal.model, some tc, some pc, some lim, some cp⟩
      | _ => .error .typeError
    else
      .ok ⟨raw_items.map JVal.model, none, none, none, none⟩
  | some _ => .error .typeError

/-- `ProjectsCollection.has_next_page()`:
`self.current_page > 0 and self.current_page < self.page_count`, with
Python's short-circuit `and` (the right operand, and hence `page_count`, is
only read when `current_page > 0`); reading an unset attribute raises
`AttributeError`. -/
def ProjectsCollection.has_next_page (c : ProjectsCollection) : Except PyErr Bool :=
  match c.current_page with
  | none => .error .attributeError
  | some cp =>
    if 0 < cp then
      match c.page_count with
      | none => .error .attributeError
      | some pc => .ok (decide (cp < pc))
    else
      .ok false

/-- `ProjectsCollection.has_prev_page()`: `self.current_page > 1`. -/
def ProjectsCollection.has_prev_page (c : ProjectsCollection) : Except PyErr Bool :=
  match c.current_page with
  | none => .error .attributeError
  | some cp => .ok (decide (1 < cp))

/-- `ProjectsCollection.is_last_page()`: `not self.has_next_page()`. -/
def ProjectsCollection.is_last_page (c : ProjectsCollection) : Except PyErr Bool :=
  match c.has_next_page with
  | .error e => .error e
  | .ok b => .ok (!b)

/-- `ProjectsCollection.is_first_page()`: `not self.has_prev_page()`. -/
def ProjectsCollection.is_first_page (c : ProjectsCollection) : Except PyErr Bool :=
  match c.has_prev_page with
  | .error e => .error e
  | .ok b => .ok (!b)

/-!
## `Client.merge_branch` response shaping (`client.py` lines 148-152)

The endpoint call `self.get_endpoint("branches").merge(...)` is an external
HTTP collaborator; its parsed JSON response is modelled as a dict object
living at an address of an explicit store, so that the in-place mutation
`response['branch'] = BranchModel(response['branch'])` and the identity of
the returned dict are observable.
-/

/-- A heap of Python dict objects, addressed by object identity. -/
abbrev Store : Type := List (Nat × PyDict)

/-- The body of `Client.merge_branch` after the endpoint call: given the
address `a` of the response dict produced by the endpoint, wrap
`response['branch']` and `response['target_branch']` into `BranchModel`s by
in-place assignment, then return the same dict. Each failed key read raises
`KeyError`, leaving any mutation already performed in the store. The
`typeError` branch is unreachable for a valid response address. -/
def merge_branch (a : Nat) (σ : Store) : Except PyErr Nat × Store :=
  match alookup σ a with
  | none => (.error .typeError, σ)
  | some response =>
    match alookup response "branch" with
    | none => (.error (.keyError "branch"), σ)
    | some b =>
      let d1 := aset response "branch" (JVal.model b)
      let σ1 := aset σ a d1
      match alookup d1 "target_branch" with
      | none => (.error (.keyError "target_branch"), σ1)
      | some t =>
        (.ok a, aset σ1 a (aset d1 "target_branch" (JVal.model t)))

/-!
## Claims about `Client.get_endpoint`, `Client.reset_client`
-/

/-- C1: for every resource name in the registry, repeated calls to
`get_endpoint` with that name on the same client, with no `reset_client` in
between, return the identical handler value (reference equality, modelled by
allocation tags) and leave the client state untouched, so the client holds
at most one handler instance per resource name per lifetime. -/
theorem c1_get_endpoint_memoized (registry : List String) (name : String)
    (c c₁ : Client) (v : Option Handler)
    (hreg : registry.contains name = true)
    (h1 : get_endpoint registry name c = (.ok v, c₁)) :
    get_endpoint registry name c₁ = (.ok v, c₁) := by
  unfold get_endpoint at h1 ⊢
  simp only [hreg, if_true] at h1 ⊢
  unfold fetch_attr at h1 ⊢
  cases halk : alookup c.attrs ("__" ++ (name ++ "_endpoint")) with
  | some v' =>
    rw [halk] at h1
    simp only [Prod.mk.injEq, Except.ok.injEq] at h1
    obtain ⟨hv, hc⟩ := h1
    subst hv
    subst hc
    rw [halk]
  | none =>
    rw [halk] at h1
    simp only [Prod.mk.injEq, Except.ok.injEq] at h1
    obtain ⟨hv, hc⟩ := h1
    subst hc
    subst hv
    rw [alookup_aset_eq]

/-- Witness for C1 at a concrete client: resolving `"projects"` twice on a
fresh client returns the same handler and the same state both times. -/
theorem c1_get_endpoint_memoized_witness :
    get_endpoint ["projects"] "projects"
        { token := "tok", connect_timeout := none, read_timeout := none,
          attrs := [("__projects_endpoint", some ⟨"projects_endpoint", 0⟩)],
          nextId := 1 }
      = (.ok (some ⟨"projects_endpoint", 0⟩),
         { token := "tok", connect_timeout := none, read_timeout := none,
           attrs := [("__projects_endpoint", some ⟨"projects_endpoint", 0⟩)],
           nextId := 1 }) :=
  c1_get_endpoint_memoized ["projects"] "projects" (Client.init "tok") _ _ rfl rfl

/-- C2 (divergence witness): the code contradicts the claim that after
`reset_client` a previously-resolved name yields a new handler instance.
On a fresh client, resolving `"projects"` yields a handler; after
`reset_client`, the memo attribute still exists holding `None`
(`__clear_endpoint_attrs` assigns `None` instead of deleting, and
`__fetch_attr` tests `hasattr`), so the next `get_endpoint("projects")`
returns `None` rather than a new handler instance. -/
theorem c2_get_endpoint_after_reset_returns_none :
    (get_endpoint ["projects"] "projects" (Client.init "tok")).1
      = .ok (some ⟨"projects_endpoint", 0⟩) ∧
    (get_endpoint ["projects"] "projects"
        (reset_client (get_endpoint ["projects"] "projects" (Client.init "tok")).2)).1
      = .ok none :=
  ⟨rfl, rfl⟩

/-- C3 (counterexample): requesting the unregistered name
`"translations"` raises `ModuleNotFoundError` from the dynamic import, not
the `ConfigurationError` stated by the claim. -/
theorem c3_counterexample_unknown_name_error_kind :
    get_endpoint ["projects"] "translations" (Client.init "tok")
      = (.error .moduleNotFoundError, Client.init "tok") ∧
    PyErr.moduleNotFoundError ≠ PyErr.configurationError :=
  ⟨rfl, by decide⟩

/-- C3 (amended): for every resource name not in the endpoint registry,
`get_endpoint` raises `ModuleNotFoundError` (the dynamic `importlib` import
fails before any attribute is touched), and the client's memoized handler
map is left unchanged by the failed call. -/
theorem c3_unknown_name_raises_and_preserves_state (registry : List String)
    (name : String) (c : Client)
    (hreg : registry.contains name = false) :
    get_endpoint registry name c = (.error .moduleNotFoundError, c) := by
  unfold get_endpoint
  simp [hreg]
  simpa using hreg

/-- Witness for C3 (amended) at a concrete unknown name and client. -/
theorem c3_unknown_name_witness :
    get_endpoint ["projects"] "translations" (Client.init "x")
      = (.error .moduleNotFoundError, Client.init "x") :=
  c3_unknown_name_raises_and_preserves_state ["projects"] "translations"
    (Client.init "x") rfl

/-!
## Claims about `ProjectsCollection`
-/

/-- C4 (divergence witness): the code contradicts the claim that a page with
no `_pagination` key yields `current_page = 0`, `page_count = 0` and working
page queries. `__init__` assigns the four pagination attributes only inside
the `if pagination:` branch, so on such a page they are never set: the
collection is built, but `current_page` is unset and every page query raises
`AttributeError` instead of returning the claimed booleans. -/
theorem c4_no_pagination_key_raises_attribute_error :
    ProjectsCollection.ofRaw [("projects", JVal.arr [JVal.obj []])]
      = .ok ⟨[JVal.model (JVal.obj [])], none, none, none, none⟩ ∧
    (ProjectsCollection.mk [JVal.model (JVal.obj [])] none none none none).current_page
      = none ∧
    (ProjectsCollection.mk [JVal.model (JVal.obj [])] none none none none).page_count
      = none ∧
    (ProjectsCollection.mk [JVal.model (JVal.obj [])] none none none none).has_next_page
      = .error .attributeError ∧
    (ProjectsCollection.mk [JVal.model (JVal.obj [])] none none none none).has_prev_page
      = .error .attributeError ∧
    (ProjectsCollection.mk [JVal.model (JVal.obj [])] none none none none).is_first_page
      = .error .attributeError ∧
    (ProjectsCollection.mk [JVal.model (JVal.obj [])] none none none none).is_last_page
      = .error .attributeError :=
  ⟨rfl, rfl, rfl, rfl, rfl, rfl, rfl⟩

/-- C5 (counterexample): on a raw page without the `"projects"` key the
constructor fails with a plain `KeyError` from the subscript
`raw_data[self.DATA_KEY]`, not with the `MalformedResponseError` stated by
the claim. -/
theorem c5_counterexample_missing_key_error_kind :
    ProjectsCollection.ofRaw [("branches", JVal.arr [])]
      = .error (.keyError "projects") ∧
    ProjectsCollection.ofRaw [("branches", JVal.arr [])]
      ≠ .error .malformedResponseError := by
  refine ⟨rfl, ?_⟩
  intro h
  rw [show ProjectsCollection.ofRaw [("branches", JVal.arr [])]
        = .error (.keyError "projects") from rfl] at h
  exact absurd (Except.error.inj h) (by decide)

/-- C5 (amended): for every raw page object lacking the `"projects"` item
key, construction fails with a `KeyError`; it never produces an empty
collection from a missing key. -/
theorem c5_missing_items_key_raises_key_error (raw_data : PyDict)
    (habs : alookup raw_data "projects" = none) :
    ProjectsCollection.ofRaw raw_data = .error (.keyError "projects") := by
  unfold ProjectsCollection.ofRaw
  rw [habs]

/-- Witness for C5 (amended) at a concrete malformed page. -/
theorem c5_missing_items_key_witness :
    ProjectsCollection.ofRaw [("branches", JVal.arr [])]
      = .error (.keyError "projects") :=
  c5_missing_items_key_raises_key_error [("branches", JVal.arr [])] rfl

/-- C6: for every collection whose pagination attributes are set,
`has_next_page()` is true iff `current_page > 0` and
`current_page < page_count`, `has_prev_page()` is true iff
`current_page > 1`, `is_last_page()` is the negation of `has_next_page()`,
and `is_first_page()` is the negation of `has_prev_page()`. -/
theorem c6_page_queries (c : ProjectsCollection) (tc pc lim cp : Int)
    (h1 : c.total_count = some tc) (h2 : c.page_count = some pc)
    (h3 : c.limit = some lim) (h4 : c.current_page = some cp) :
    c.has_next_page = .ok (decide (0 < cp) && decide (cp < pc)) ∧
    c.has_prev_page = .ok (decide (1 < cp)) ∧
    c.is_last_page = .ok (!(decide (0 < cp) && decide (cp < pc))) ∧
    c.is_first_page = .ok (!decide (1 < cp)) := by
  have hnext : c.has_next_page = .ok (decide (0 < cp) && decide (cp < pc)) := by
    unfold ProjectsCollection.has_next_page
    rw [h4, h2]
    by_cases h : 0 < cp
    · simp [h]
    · simp [h]
  have hprev : c.has_prev_page = .ok (decide (1 < cp)) := by
    unfold ProjectsCollection.has_prev_page
    rw [h4]
  refine ⟨hnext, hprev, ?_, ?_⟩
  · unfold ProjectsCollection.is_last_page
    rw [hnext]
  · unfold ProjectsCollection.is_first_page
    rw [hprev]

/-- Witness for C6 on a concrete middle page (page 2 of 3): next and
previous pages both exist, and the first/last queries are their negations. -/
theorem c6_page_queries_witness :
    (ProjectsCollection.mk [] (some 9) (some 3) (some 2) (some 2)).has_next_page
      = .ok true ∧
    (ProjectsCollection.mk [] (some 9) (some 3) (some 2) (some 2)).has_prev_page
      = .ok true ∧
    (ProjectsCollection.mk [] (some 9) (some 3) (some 2) (some 2)).is_last_page
      = .ok false ∧
    (ProjectsCollection.mk [] (some 9) (some 3) (some 2) (some 2)).is_first_page
      = .ok false :=
  c6_page_queries (ProjectsCollection.mk [] (some 9) (some 3) (some 2) (some 2))
    9 3 2 2 rfl rfl rfl rfl

/-- C9: for every raw page object accepted by the constructor, either all
four pagination attributes are set (the `_pagination` block was truthy) or
none of them is; no collection ever has only some pagination attributes
set. -/
theorem c9_pagination_all_or_none (raw_data : PyDict) (c : ProjectsCollection)
    (hok : ProjectsCollection.ofRaw raw_data = .ok c) :
    (c.total_count.isSome ∧ c.page_count.isSome ∧ c.limit.isSome ∧
      c.current_page.isSome) ∨
    (c.total_count = none ∧ c.page_count = none ∧ c.limit = none ∧
      c.current_page = none) := by
  unfold ProjectsCollection.ofRaw at hok
  repeat' split at hok
  all_goals first
    | exact Except.noConfusion hok
    | (injection hok with h; subst h; simp)

/-- Witness for C9 at a concrete page without pagination metadata: all four
attributes are unset together. -/
theorem c9_pagination_all_or_none_witness :
    ((ProjectsCollection.mk [] none none none none).total_count.isSome ∧
      (ProjectsCollection.mk [] none none none none).page_count.isSome ∧
      (ProjectsCollection.mk [] none none none none).limit.isSome ∧
      (ProjectsCollection.mk [] none none none none).current_page.isSome) ∨
    ((ProjectsCollection.mk [] none none none none).total_count = none ∧
      (ProjectsCollection.mk [] none none none none).page_count = none ∧
      (ProjectsCollection.mk [] none none none none).limit = none ∧
      (ProjectsCollection.mk [] none none none none).current_page = none) :=
  c9_pagination_all_or_none [("projects", JVal.arr [])]
    (ProjectsCollection.mk [] none none none none) rfl

/-- C7 (counterexample): on a raw page whose `_pagination` block is present
but empty, the claim says every pagination field equals the integer coercion
of its missing sub-key, i.e. `0`; but `__init__` guards the parsing with
`if pagination:`, which is false for an empty dict, so the attributes are
never set at all (in particular `current_page` is unset, not `0`). -/
theorem c7_counterexample_empty_pagination_block :
    ProjectsCollection.ofRaw [("projects", JVal.arr []), ("_pagination", JVal.obj [])]
      = .ok ⟨[], none, none, none, none⟩ ∧
    (ProjectsCollection.mk [] none none none none).current_page ≠ some 0 :=
  ⟨rfl, by decide⟩

/-- C7 (amended): for every raw page whose item array holds `ps` and whose
`_pagination` block is present and non-empty, the constructed collection
holds exactly the models of `ps` in order, and each pagination attribute is
set to the integer coercion of its sub-key value, defaulting to `0` when the
sub-key is missing. -/
theorem c7_items_and_pagination_parsed (raw_data : PyDict) (ps : List JVal)
    (pfields : List (String × JVal)) (c : ProjectsCollection)
    (hitems : alookup raw_data "projects" = some (JVal.arr ps))
    (hpag : alookup raw_data "_pagination" = some (JVal.obj pfields))
    (hne : pfields ≠ [])
    (hok : ProjectsCollection.ofRaw raw_data = .ok c) :
    c.items = ps.map JVal.model ∧
    (py_int (dget pfields "x-pagination-total-count" (JVal.num 0))).map Option.some
      = .ok c.total_count ∧
    (py_int (dget pfields "x-pagination-page-count" (JVal.num 0))).map Option.some
      = .ok c.page_count ∧
    (py_int (dget pfields "x-pagination-limit" (JVal.num 0))).map Option.some
      = .ok c.limit ∧
    (py_int (dget pfields "x-pagination-page" (JVal.num 0))).map Option.some
      = .ok c.current_page := by
  have htr : pyTruthy ((alookup raw_data "_pagination").getD (JVal.obj []))
      = true := by
    rw [hpag]
    cases pfields with
    | nil => exact absurd rfl hne
    | cons p l => rfl
  unfold ProjectsCollection.ofRaw at hok
  rw [hitems] at hok
  rw [htr] at hok
  rw [hpag] at hok
  simp only [Option.getD_some, if_true] at hok
  repeat' split at hok
  all_goals first
    | exact Except.noConfusion hok
    | (injection hok with h; subst h;
       refine ⟨rfl, ?_, ?_, ?_, ?_⟩ <;> simp_all [Except.map])

/-- Witness for C7 (amended) at the concrete page from the spec's test
catalogue: two items and a full string-valued pagination block. -/
theorem c7_items_and_pagination_witness :
    (ProjectsCollection.mk
        [JVal.model (JVal.obj [("name", JVal.str "A")]),
         JVal.model (JVal.obj [("name", JVal.str "B")])]
        (some 2) (some 1) (some 10) (some 1)).items
      = [JVal.obj [("name", JVal.str "A")],
         JVal.obj [("name", JVal.str "B")]].map JVal.model ∧
    (py_int (dget [("x-pagination-total-count", JVal.str "2"),
        ("x-pagination-page-count", JVal.str "1"),
        ("x-pagination-limit", JVal.str "10"),
        ("x-pagination-page", JVal.str "1")] "x-pagination-total-count"
        (JVal.num 0))).map Option.some = .ok (some 2) ∧
    (py_int (dget [("x-pagination-total-count", JVal.str "2"),
        ("x-pagination-page-count", JVal.str "1"),
        ("x-pagination-limit", JVal.str "10"),
        ("x-pagination-page", JVal.str "1")] "x-pagination-page-count"
        (JVal.num 0))).map Option.some = .ok (some 1) ∧
    (py_int (dget [("x-pagination-total-count", JVal.str "2"),
        ("x-pagination-page-count", JVal.str "1"),
        ("x-pagination-limit", JVal.str "10"),
        ("x-pagination-page", JVal.str "1")] "x-pagination-limit"
        (JVal.num 0))).map Option.some = .ok (some 10) ∧
    (py_int (dget [("x-pagination-total-count", JVal.str "2"),
        ("x-pagination-page-count", JVal.str "1"),
        ("x-pagination-limit", JVal.str "10"),
        ("x-pagination-page", JVal.str "1")] "x-pagination-page"
        (JVal.num 0))).map Option.some = .ok (some 1) :=
  c7_items_and_pagination_parsed
    [("projects", JVal.arr [JVal.obj [("name", JVal.str "A")],
       JVal.obj [("name", JVal.str "B")]]),
     ("_pagination", JVal.obj [("x-pagination-total-count", JVal.str "2"),
       ("x-pagination-page-count", JVal.str "1"),
       ("x-pagination-limit", JVal.str "10"),
       ("x-pagination-page", JVal.str "1")])]
    [JVal.obj [("name", JVal.str "A")], JVal.obj [("name", JVal.str "B")]]
    [("x-pagination-total-count", JVal.str "2"),
     ("x-pagination-page-count", JVal.str "1"),
     ("x-pagination-limit", JVal.str "10"),
     ("x-pagination-page", JVal.str "1")]
    (ProjectsCollection.mk
      [JVal.model (JVal.obj [("name", JVal.str "A")]),
       JVal.model (JVal.obj [("name", JVal.str "B")])]
      (some 2) (some 1) (some 10) (some 1))
    rfl rfl (by simp) rfl

/-!
## Claims about `Client.merge_branch`
-/

/-- C8: for every response dict (at address `a` of the store) containing
`branch` and `target_branch` values, `merge_branch` succeeds with the same
address and the dict now stored there binds both keys to `BranchModel`
wrappers of the original values — model instances, not raw JSON objects. -/
theorem c8_merge_branch_wraps_models (σ : Store) (a : Nat) (d : PyDict)
    (b t : JVal)
    (hσ : alookup σ a = some d)
    (hb : alookup d "branch" = some b)
    (ht : alookup d "target_branch" = some t) :
    (merge_branch a σ).1 = .ok a ∧
    alookup (merge_branch a σ).2 a
      = some (aset (aset d "branch" (JVal.model b)) "target_branch" (JVal.model t)) ∧
    alookup (aset (aset d "branch" (JVal.model b)) "target_branch" (JVal.model t))
        "branch" = some (JVal.model b) ∧
    alookup (aset (aset d "branch" (JVal.model b)) "target_branch" (JVal.model t))
        "target_branch" = some (JVal.model t) := by
  have hd1t : alookup (aset d "branch" (JVal.model b)) "target_branch" = some t := by
    rw [alookup_aset_ne _ _ _ _ (by decide)]
    exact ht
  unfold merge_branch
  simp only [hσ, hb, hd1t]
  refine ⟨trivial, ?_, ?_, ?_⟩
  · exact alookup_aset_eq _ _ _
  · rw [alookup_aset_ne _ _ _ _ (by decide)]
    exact alookup_aset_eq _ _ _
  · exact alookup_aset_eq _ _ _

/-- Witness for C8 on a concrete merge response: both nested objects come
back wrapped as models in the same dict object. -/
theorem c8_merge_branch_wraps_models_witness :
    (merge_branch 0
        [(0, [("project_id", JVal.str "123"), ("branch_merged", JVal.num 1),
              ("branch", JVal.obj [("branch_id", JVal.num 421)]),
              ("target_branch", JVal.obj [("branch_id", JVal.num 422)])])]).1
      = .ok 0 ∧
    alookup (merge_branch 0
        [(0, [("project_id", JVal.str "123"), ("branch_merged", JVal.num 1),
              ("branch", JVal.obj [("branch_id", JVal.num 421)]),
              ("target_branch", JVal.obj [("branch_id", JVal.num 422)])])]).2 0
      = some (aset (aset
          [("project_id", JVal.str "123"), ("branch_merged", JVal.num 1),
           ("branch", JVal.obj [("branch_id", JVal.num 421)]),
           ("target_branch", JVal.obj [("branch_id", JVal.num 422)])]
          "branch" (JVal.model (JVal.obj [("branch_id", JVal.num 421)])))
          "target_branch" (JVal.model (JVal.obj [("branch_id", JVal.num 422)]))) ∧
    alookup (aset (aset
        [("project_id", JVal.str "123"), ("branch_merged", JVal.num 1),
         ("branch", JVal.obj [("branch_id", JVal.num 421)]),
         ("target_branch", JVal.obj [("branch_id", JVal.num 422)])]
        "branch" (JVal.model (JVal.obj [("branch_id", JVal.num 421)])))
        "target_branch" (JVal.model (JVal.obj [("branch_id", JVal.num 422)])))
        "branch" = some (JVal.model (JVal.obj [("branch_id", JVal.num 421)])) ∧
    alookup (aset (aset
        [("project_id", JVal.str "123"), ("branch_merged", JVal.num 1),
         ("branch", JVal.obj [("branch_id", JVal.num 421)]),
         ("target_branch", JVal.obj [("branch_id", JVal.num 422)])]
        "branch" (JVal.model (JVal.obj [("branch_id", JVal.num 421)])))
        "target_branch" (JVal.model (JVal.obj [("branch_id", JVal.num 422)])))
        "target_branch" = some (JVal.model (JVal.obj [("branch_id", JVal.num 422)])) :=
  c8_merge_branch_wraps_models
    [(0, [("project_id", JVal.str "123"), ("branch_merged", JVal.num 1),
          ("branch", JVal.obj [("branch_id", JVal.num 421)]),
          ("target_branch", JVal.obj [("branch_id", JVal.num 422)])])]
    0
    [("project_id", JVal.str "123"), ("branch_merged", JVal.num 1),
     ("branch", JVal.obj [("branch_id", JVal.num 421)]),
     ("target_branch", JVal.obj [("branch_id", JVal.num 422)])]
    (JVal.obj [("branch_id", JVal.num 421)])
    (JVal.obj [("branch_id", JVal.num 422)])
    rfl rfl rfl

/-- C10: `merge_branch` mutates the endpoint's response dict in place: it
returns the address of the very dict object the endpoint produced (updated
in the store), every key other than `branch` and `target_branch` keeps its
original value, and every other object in the store is untouched. -/
theorem c10_merge_branch_in_place_frame (σ : Store) (a a' : Nat) (d : PyDict)
    (b t : JVal) (k : String)
    (hσ : alookup σ a = some d)
    (hb : alookup d "branch" = some b)
    (ht : alookup d "target_branch" = some t)
    (hk1 : k ≠ "branch") (hk2 : k ≠ "target_branch") (ha : a' ≠ a) :
    (merge_branch a σ).1 = .ok a ∧
    alookup (merge_branch a σ).2 a
      = some (aset (aset d "branch" (JVal.model b)) "target_branch" (JVal.model t)) ∧
    alookup (aset (aset d "branch" (JVal.model b)) "target_branch" (JVal.model t)) k
      = alookup d k ∧
    alookup (merge_branch a σ).2 a' = alookup σ a' := by
  have hd1t : alookup (aset d "branch" (JVal.model b)) "target_branch" = some t := by
    rw [alookup_aset_ne _ _ _ _ (by decide)]
    exact ht
  unfold merge_branch
  simp only [hσ, hb, hd1t]
  refine ⟨trivial, ?_, ?_, ?_⟩
  · exact alookup_aset_eq _ _ _
  · rw [alookup_aset_ne _ _ _ _ hk2, alookup_aset_ne _ _ _ _ hk1]
  · rw [alookup_aset_ne _ _ _ _ ha, alookup_aset_ne _ _ _ _ ha]

/-- Witness for C10 on a concrete store with a second untouched dict: the
returned address is the response's own, `project_id` keeps its value, and
the dict at address 1 is unchanged. -/
theorem c10_merge_branch_in_place_frame_witness :
    (merge_branch 0
        [(0, [("project_id", JVal.str "123"),
              ("branch", JVal.obj [("branch_id", JVal.num 421)]),
              ("target_branch", JVal.obj [("branch_id", JVal.num 422)])]),
         (1, [("other", JVal.num 7)])]).1
      = .ok 0 ∧
    alookup (merge_branch 0
        [(0, [("project_id", JVal.str "123"),
              ("branch", JVal.obj [("branch_id", JVal.num 421)]),
              ("target_branch", JVal.obj [("branch_id", JVal.num 422)])]),
         (1, [("other", JVal.num 7)])]).2 0
      = some (aset (aset
          [("project_id", JVal.str "123"),
           ("branch", JVal.obj [("branch_id", JVal.num 421)]),
           ("target_branch", JVal.obj [("branch_id", JVal.num 422)])]
          "branch" (JVal.model (JVal.obj [("branch_id", JVal.num 421)])))
          "target_branch" (JVal.model (JVal.obj [("branch_id", JVal.num 422)]))) ∧
    alookup (aset (aset
        [("project_id", JVal.str "123"),
         ("branch", JVal.obj [("branch_id", JVal.num 421)]),
         ("target_branch", JVal.obj [("branch_id", JVal.num 422)])]
        "branch" (JVal.model (JVal.obj [("branch_id", JVal.num 421)])))
        "target_branch" (JVal.model (JVal.obj [("branch_id", JVal.num 422)])))
        "project_id"
      = alookup [("project_id", JVal.str "123"),
         ("branch", JVal.obj [("branch_id", JVal.num 421)]),
         ("target_branch", JVal.obj [("branch_id", JVal.num 422)])] "project_id" ∧
    alookup (merge_branch 0
        [(0, [("project_id", JVal.str "123"),
              ("branch", JVal.obj [("branch_id", JVal.num 421)]),
              ("target_branch", JVal.obj [("branch_id", JVal.num 422)])]),
         (1, [("other", JVal.num 7)])]).2 1
      = alookup [(0, [("project_id", JVal.str "123"),
              ("branch", JVal.obj [("branch_id", JVal.num 421)]),
              ("target_branch", JVal.obj [("branch_id", JVal.num 422)])]),
           (1, [("other", JVal.num 7)])] 1 :=
  c10_merge_branch_in_place_frame
    [(0, [("project_id", JVal.str "123"),
          ("branch", JVal.obj [("branch_id", JVal.num 421)]),
          ("target_branch", JVal.obj [("branch_id", JVal.num 422)])]),
     (1, [("other", JVal.num 7)])]
    0 1
    [("project_id", JVal.str "123"),
     ("branch", JVal.obj [("branch_id", JVal.num 421)]),
     ("target_branch", JVal.obj [("branch_id", JVal.num 422)])]
    (JVal.obj [("branch_id", JVal.num 421)])
    (JVal.obj [("branch_id", JVal.num 422)])
    "project_id"
    rfl rfl rfl (by decide) (by decide) (by decide)
